import Mathlib

/-!
# Verification of the BrewTools calculation engine

Shallow embedding of `src/brew_tools/calculator.py` and
`src/brew_tools/grains.py`.

Modelling conventions:

* Python `decimal.Decimal` values, `int`s and `float`s are modelled by their
  exact rational values (`ℚ`).  `Decimal(float_value)` is exact in Python, so
  a float input is represented by the exact dyadic rational value of the
  IEEE-754 double.  `Decimal` addition/subtraction/multiplication is exact
  whenever the result fits in the context precision (28 significant digits,
  the default), which holds for every concrete input appearing below;
  division results are rounded to 28 significant digits by Python, which we
  model exactly — none of the theorems below depend on digits beyond that
  precision.
* `Decimal.quantize(..., rounding=ROUND_HALF_UP)` is round-to-nearest with
  ties away from zero, modelled by `roundHalfUp`.
* Python `int(x)` on a `Decimal` truncates toward zero, modelled by `pyint`.
* `Decimal` division raises `decimal.DivisionByZero` when the divisor is 0
  and the dividend is nonzero, and `decimal.InvalidOperation` on 0/0 (both
  traps are enabled in the default context); modelled by `pydiv`.
* Fallible functions return `Except PyErr`.  Following the spec's error
  vocabulary, Python `TypeError`/`ValueError` are both mapped to
  `PyErr.invalidArgument`, `decimal.DivisionByZero` to `PyErr.divisionByZero`,
  `decimal.InvalidOperation` to `PyErr.invalidOperation`, and the dict
  `KeyError` of the grain table to `PyErr.unknownIngredient`.
* IEEE-754 double-precision multiplication of two floats (which the source
  performs in `calc_total_gravity_points`, `calc_expected_yield` and
  `calc_mash_water_volume` before any `Decimal` conversion) is modelled by
  `fl`, rounding an exact rational to 53 significant bits with ties to even
  (exact for the normal range; subnormals and overflow are outside the range
  of every input considered here).
-/

/-- Error kinds, following §7 of the specification. -/
inductive PyErr where
  | invalidArgument : PyErr
  | divisionByZero : PyErr
  | invalidOperation : PyErr
  | unknownIngredient : String → PyErr
deriving DecidableEq, Repr

/-- Rounding mode `ROUND_HALF_UP` on a scaled value: nearest integer, ties away from zero. -/
def roundHalfUp (r : ℚ) : ℤ :=
  if r < 0 then -⌊-r + 1 / 2⌋ else ⌊r + 1 / 2⌋

/-- Python `int(x)`: truncation toward zero. -/
def pyint (q : ℚ) : ℤ :=
  if q < 0 then ⌈q⌉ else ⌊q⌋

/-- Function `to_decimal` (calculator.py lines 29–55), success path: quantize `value`
to `decimal_places` fractional digits with `ROUND_HALF_UP`.  The Python
default for `decimal_places` is 3. -/
def to_decimal (value : ℚ) (decimal_places : ℕ := 3) : ℚ :=
  (roundHalfUp (value * 10 ^ decimal_places) : ℚ) / 10 ^ decimal_places

/-- Python `Decimal` division: `x / 0` raises `DivisionByZero` when `x ≠ 0` and
`InvalidOperation` on `0 / 0`. -/
def pydiv (x y : ℚ) : Except PyErr ℚ :=
  if y = 0 then
    (if x = 0 then .error .invalidOperation else .error .divisionByZero)
  else .ok (x / y)

/-- Function `convert_sg_to_ppg` (calculator.py lines 58–66):
`int((to_decimal(gravity) - 1) * 1000)`. -/
def convert_sg_to_ppg (gravity : ℚ) : ℤ :=
  pyint ((to_decimal gravity - 1) * 1000)

/-- Function `convert_lbs_to_lbs_ounces` (calculator.py lines 69–79):
`pounds = int(lbs); ounces = to_decimal((lbs - pounds) * 16, 1)`. -/
def convert_lbs_to_lbs_ounces (lbs : ℚ) : ℤ × ℚ :=
  (pyint lbs, to_decimal ((lbs - (pyint lbs : ℚ)) * 16) 1)

/-- Function `calc_total_gravity_points` (calculator.py lines 82–90):
`to_decimal(convert_sg_to_ppg(specific_gravity) * gallons)`.  The product is
formed before any `Decimal` conversion of `gallons`; this definition models
the exact-arithmetic case (`gallons` an int or `Decimal`), `fl`-variants
below model the float case. -/
def calc_total_gravity_points (specific_gravity gallons : ℚ) : ℚ :=
  to_decimal ((convert_sg_to_ppg specific_gravity : ℚ) * gallons)

/-- Function `calc_expected_yield` (calculator.py lines 93–101):
`to_decimal(max_yield * efficiency)`, the product again formed on the raw
inputs. -/
def calc_expected_yield (max_yield efficiency : ℚ) : ℚ :=
  to_decimal (max_yield * efficiency)

/-- Function `calc_grain_qty` (calculator.py lines 104–113):
`to_decimal(total_gravity_points * Decimal(grain_ratio) / Decimal(expected_yield))`. -/
def calc_grain_qty (total_gravity_points grain_ratio expected_yield : ℚ) :
    Except PyErr ℚ :=
  (pydiv (total_gravity_points * grain_ratio) expected_yield).map
    (fun q => to_decimal q)

/-- Function `calc_mash_water_volume` (calculator.py lines 152–160):
`to_decimal(water_grist_ratio * grains_weight)`, raw product. -/
def calc_mash_water_volume (water_grist_ratio grains_weight : ℚ) : ℚ :=
  to_decimal (water_grist_ratio * grains_weight)

/-- Function `calc_strike_temp` (calculator.py lines 163–177): all inputs converted to
`Decimal`, then
`to_decimal((0.2 / water_grist_ratio) * (target_temp - initial_temp) + target_temp)`. -/
def calc_strike_temp (water_grist_ratio initial_temp target_temp : ℚ) :
    Except PyErr ℚ :=
  (pydiv 0.2 water_grist_ratio).map
    (fun q => to_decimal (q * (target_temp - initial_temp) + target_temp))

/-- Function `calc_infusion_volume` (calculator.py lines 180–198): all inputs converted
to `Decimal`, then
`to_decimal((target - initial) * (0.2 * grain + water) / (infusion - target))`. -/
def calc_infusion_volume
    (initial_temp target_temp infusion_temp water_in_mash grain_in_mash : ℚ) :
    Except PyErr ℚ :=
  (pydiv ((target_temp - initial_temp) *
      (0.2 * grain_in_mash + water_in_mash))
    (infusion_temp - target_temp)).map (fun q => to_decimal q)

/-- Constant `constant_shrinkage_rate = Decimal(.04)` (calculator.py line 230): the
conversion is from the *float* `.04`, whose exact value is
`5764607523034235 / 2 ^ 57`, not the rational `1/25`. -/
def constant_shrinkage_rate : ℚ :=
  5764607523034235 / 144115188075855872

/-- Function `calc_shrinkage_loss` (calculator.py lines 223–231):
`to_decimal(Decimal(initial_volume) * constant_shrinkage_rate)`. -/
def calc_shrinkage_loss (initial_volume : ℚ) : ℚ :=
  to_decimal (initial_volume * constant_shrinkage_rate)

/-- Table `max_gravities` (grains.py lines 26–133): the static ingredient reference
table.  The Python values are float literals with at most three decimal
digits; each is represented by its decimal value, which is faithful for
every use (the table value only ever flows into
`to_decimal(·, 3)` inside `convert_sg_to_ppg`, where the double of a
3-decimal-digit literal and the literal itself round identically). -/
def max_gravities : List (String × ℚ) := [
  ("American Black Barley", 1.025),
  ("American Black Patent", 1.026),
  ("American Chocolate", 1.034),
  ("American Crystal 10L", 1.034),
  ("American Crystal 20L", 1.034),
  ("American Crystal 30L", 1.034),
  ("American Crystal 40L", 1.034),
  ("American Crystal 60L", 1.034),
  ("American Crystal 80L", 1.034),
  ("American Crystal 90L", 1.034),
  ("American Crystal 120L", 1.034),
  ("American Dextrin", 1.033),
  ("American Munich", 1.034),
  ("American Pale (2-Row)", 1.037),
  ("American Pale (6-Row)", 1.035),
  ("American Roasted Barley", 1.025),
  ("American Special Roast", 1.035),
  ("American Victory", 1.034),
  ("American Vienna", 1.035),
  ("American Wheat", 1.038),
  ("American White Wheat", 1.037),
  ("Belgian Aromatic", 1.036),
  ("Belgian Pale Ale", 1.038),
  ("Belgian Biscuit", 1.035),
  ("Belgian Candy Sugar", 1.036),
  ("Belgian Caramel Pils", 1.030),
  ("Belgian Caramunich", 1.033),
  ("Belgian Caravienne", 1.034),
  ("Belgian Chocolate", 1.033),
  ("Belgian De-Bittered Black", 1.030),
  ("Belgian Pale", 1.038),
  ("Belgian Pilsen", 1.037),
  ("Belgian Roasted Wheat", 1.036),
  ("Belgian Special B", 1.030),
  ("British Amber Malt 35L", 1.032),
  ("British Amber Malt 65L", 1.032),
  ("British Black Patent", 1.026),
  ("British Brown", 1.032),
  ("British Cara-Pils Dextrin", 1.033),
  ("British Caramalt", 0.00),
  ("British Chocolate", 1.034),
  ("British Crystal", 1.034),
  ("British Dark Crystal", 1.034),
  ("British Lager", 1.038),
  ("British Maris Otter Pale", 1.038),
  ("British Mild Ale", 1.037),
  ("British Oat", 1.034),
  ("British Pale", 1.038),
  ("British Pale Chocolate", 1.034),
  ("British Peat Smoked", 1.034),
  ("British Roasted Barley", 1.025),
  ("British Toasted Pale", 1.038),
  ("British Torrified Wheat", 1.036),
  ("British Wheat", 1.038),
  ("Brown Sugar", 1.046),
  ("Brown Sugar (Dark)", 1.046),
  ("Candi Sugar (Amber)", 1.036),
  ("Candi Sugar (Dark)", 1.036),
  ("Corn Sugar", 1.036),
  ("Demerara Sugar", 1.041),
  ("Dextrose (Glucose)", 1.037),
  ("Dry Malt Extract", 1.044),
  ("Flaked Barley", 1.032),
  ("Flaked Maize", 1.037),
  ("Flaked Oats", 1.033),
  ("Flaked Rye", 1.036),
  ("Flaked Wheat", 1.036),
  ("Franco-Belges Kiln Coffee", 0.00),
  ("Gambrinus Honey Malt", 1.034),
  ("German Aciduated (Sauer)", 1.033),
  ("German CaraWheat", 1.035),
  ("German CaraAmber", 1.033),
  ("German CaraAroma", 1.034),
  ("German Carafa I", 1.038),
  ("German Carafa II", 1.038),
  ("German Carafa III", 1.038),
  ("German CaraFoam", 1.033),
  ("German CaraHell", 1.034),
  ("German CaraMunich I", 1.034),
  ("German CaraMunich II", 1.034),
  ("German CaraMunich III", 1.034),
  ("German CaraRed", 1.033),
  ("German Chocolate Rye", 1.030),
  ("German Chocolate Wheat", 1.038),
  ("German Dark Munich", 1.034),
  ("German Dark Wheat", 1.039),
  ("German Kolsch", 1.034),
  ("German Light Munich", 1.034),
  ("German Light Wheat", 1.039),
  ("German Melanoidin", 1.033),
  ("German Rauch Smoked", 1.037),
  ("German Rye", 1.029),
  ("German Vienna", 1.035),
  ("Grits", 1.037),
  ("Honey", 1.032),
  ("Invert Sugar", 1.046),
  ("Lactose", 1.043),
  ("Liquid Malt Extract", 1.036),
  ("Lyle\x27s Golden Syrup", 1.036),
  ("Maple Sap", 1.009),
  ("Maple Syrup", 1.030),
  ("Molasses", 1.036),
  ("Rice Solids", 1.040),
  ("Scotmalt Golden Promise", 1.038),
  ("Treacle", 1.036),
  ("White Table Sugar", 1.046)
]

/-- Dictionary access `grains.max_gravities[grain]`: case- and string-exact
lookup in the reference table. -/
def gravity_lookup (grain : String) : Option ℚ :=
  List.lookup grain max_gravities

/-- Body of the generator inside `calc_grain_bill` (calculator.py lines
116–135), with `total_gravity_points` already computed: the entries are
produced left to right and the first raised exception propagates, so no
partial output is committed. -/
def calc_grain_bill_from_points (total_gravity_points : ℚ) :
    List (String × ℚ × ℚ) → Except PyErr (List (String × ℤ × ℚ))
  | [] => .ok []
  | (grain, ratio, efficiency) :: rest => do
    let mg ← match gravity_lookup grain with
      | some v => Except.ok v
      | none => Except.error (PyErr.unknownIngredient grain)
    let qty ← calc_grain_qty total_gravity_points ratio
      (calc_expected_yield (convert_sg_to_ppg mg : ℚ) efficiency)
    let tail ← calc_grain_bill_from_points total_gravity_points rest
    Except.ok ((grain, convert_lbs_to_lbs_ounces qty) :: tail)

/-- Function `calc_grain_bill` (calculator.py lines 116–135). -/
def calc_grain_bill (target_gravity volume : ℚ)
    (grain_list : List (String × ℚ × ℚ)) :
    Except PyErr (List (String × ℤ × ℚ)) :=
  calc_grain_bill_from_points
    (calc_total_gravity_points target_gravity volume) grain_list

/-- Floor of the base-2 logarithm of a natural number (0 for `n ≤ 1`). -/
def lg2 (n : ℕ) : ℕ :=
  if n ≤ 1 then 0 else lg2 (n / 2) + 1
termination_by n
decreasing_by exact Nat.div_lt_self (by omega) (by omega)

/-- Binary exponent of a positive rational: the `e` with `2^e ≤ q < 2^(e+1)`,
computed from the numerator's and denominator's bit lengths with a one-step
correction. -/
def qexp (q : ℚ) : ℤ :=
  let e0 : ℤ := (lg2 q.num.natAbs : ℤ) - (lg2 q.den : ℤ)
  if q < (2 : ℚ) ^ e0 then e0 - 1
  else if (2 : ℚ) ^ (e0 + 1) ≤ q then e0 + 1
  else e0

/-- Round to nearest integer, ties to even (the IEEE-754 default). -/
def rnEven (r : ℚ) : ℤ :=
  if r - ⌊r⌋ < 1 / 2 then ⌊r⌋
  else if (1 : ℚ) / 2 < r - ⌊r⌋ then ⌊r⌋ + 1
  else if ⌊r⌋ % 2 = 0 then ⌊r⌋ else ⌊r⌋ + 1

/-- Rounding of an exact rational to an IEEE-754 double: 53 significant bits,
round to nearest, ties to even.  This models the binary floating-point
multiplication the source performs on raw `float` inputs (exact for results
in the normal range; subnormals and overflow do not occur for any input
considered in this development). -/
def fl (q : ℚ) : ℚ :=
  if q = 0 then 0
  else
    (if 0 < q then 1 else -1) *
      (rnEven (|q| * (2 : ℚ) ^ ((52 : ℤ) - qexp |q|)) : ℚ) *
      (2 : ℚ) ^ (qexp |q| - (52 : ℤ))

/-- Variant of `calc_total_gravity_points` when `gallons` is a Python float: the source
multiplies the raw `int` PPG value by the float, so the product is rounded
to double precision before the `Decimal` conversion inside `to_decimal`. -/
def calc_total_gravity_points_float (specific_gravity gallons : ℚ) : ℚ :=
  to_decimal (fl ((convert_sg_to_ppg specific_gravity : ℚ) * gallons))

/-- Variant of `calc_expected_yield` when both inputs are Python floats: the raw product
`max_yield * efficiency` is evaluated in double precision first. -/
def calc_expected_yield_float (max_yield efficiency : ℚ) : ℚ :=
  to_decimal (fl (max_yield * efficiency))

/-- Variant of `calc_mash_water_volume` when both inputs are Python floats: the raw
product `water_grist_ratio * grains_weight` is evaluated in double precision
first. -/
def calc_mash_water_volume_float (water_grist_ratio grains_weight : ℚ) : ℚ :=
  to_decimal (fl (water_grist_ratio * grains_weight))

/-! ## Helper lemmas about the rounding primitives -/

theorem roundHalfUp_nonneg {r : ℚ} (h : 0 ≤ r) : 0 ≤ roundHalfUp r := by
  unfold roundHalfUp
  rw [if_neg (not_lt.mpr h)]
  exact Int.floor_nonneg.mpr (by linarith)

theorem roundHalfUp_nonpos {r : ℚ} (h : r ≤ 0) : roundHalfUp r ≤ 0 := by
  unfold roundHalfUp
  split_ifs with h0
  · simp only [neg_nonpos]
    exact Int.floor_nonneg.mpr (by linarith)
  · have hr : r = 0 := le_antisymm h (not_lt.mp h0)
    subst hr
    norm_num

theorem le_roundHalfUp (r : ℚ) : r - 1 / 2 ≤ (roundHalfUp r : ℚ) := by
  unfold roundHalfUp
  split_ifs with h0
  · push_cast
    have := Int.floor_le (-r + 1 / 2)
    linarith
  · have := Int.sub_one_lt_floor (r + 1 / 2)
    push_cast at this ⊢
    linarith

theorem roundHalfUp_le (r : ℚ) : (roundHalfUp r : ℚ) ≤ r + 1 / 2 := by
  unfold roundHalfUp
  split_ifs with h0
  · have := Int.sub_one_lt_floor (-r + 1 / 2)
    push_cast
    linarith
  · have := Int.floor_le (r + 1 / 2)
    linarith

theorem roundHalfUp_sub_abs (r : ℚ) : |(roundHalfUp r : ℚ) - r| ≤ 1 / 2 :=
  abs_le.mpr ⟨by linarith [le_roundHalfUp r], by linarith [roundHalfUp_le r]⟩

theorem roundHalfUp_tie {r : ℚ} (h : |(roundHalfUp r : ℚ) - r| = 1 / 2) :
    |r| ≤ |(roundHalfUp r : ℚ)| := by
  rcases abs_eq (by norm_num : (0 : ℚ) ≤ 1 / 2) |>.mp h with he | he
  · -- rounded half a unit up
    have h1 : (roundHalfUp r : ℚ) = r + 1 / 2 := by linarith
    rcases le_or_lt 0 r with hr | hr
    · have h2 : (0 : ℚ) ≤ (roundHalfUp r : ℚ) := by
        exact_mod_cast roundHalfUp_nonneg hr
      rw [abs_of_nonneg hr, abs_of_nonneg h2, h1]
      linarith
    · -- a negative value cannot round upward by exactly one half
      exfalso
      unfold roundHalfUp at h1
      rw [if_pos hr] at h1
      have := Int.sub_one_lt_floor (-r + 1 / 2)
      push_cast at h1
      linarith
  · -- rounded half a unit down
    have h1 : (roundHalfUp r : ℚ) = r - 1 / 2 := by linarith
    rcases le_or_lt 0 r with hr | hr
    · -- a nonnegative value cannot round downward by exactly one half
      exfalso
      unfold roundHalfUp at h1
      rw [if_neg (not_lt.mpr hr)] at h1
      have := Int.sub_one_lt_floor (r + 1 / 2)
      linarith
    · have h2 : (roundHalfUp r : ℚ) ≤ 0 := by
        exact_mod_cast roundHalfUp_nonpos hr.le
      rw [abs_of_nonpos hr.le, abs_of_nonpos h2, h1]
      linarith

theorem roundHalfUp_eval {r : ℚ} {n : ℤ} (h0 : 0 ≤ r)
    (h1 : (n : ℚ) ≤ r + 1 / 2) (h2 : r + 1 / 2 < (n : ℚ) + 1) :
    roundHalfUp r = n := by
  unfold roundHalfUp
  rw [if_neg (not_lt.mpr h0)]
  exact Int.floor_eq_iff.mpr ⟨h1, h2⟩

theorem pyint_intCast (n : ℤ) : pyint (n : ℚ) = n := by
  unfold pyint
  split_ifs <;> simp

theorem pyint_of_nonneg {q : ℚ} (h : 0 ≤ q) : pyint q = ⌊q⌋ :=
  if_neg (not_lt.mpr h)

theorem pyint_nonpos {q : ℚ} (h : q ≤ 0) : pyint q ≤ 0 := by
  unfold pyint
  split_ifs with h0
  · exact Int.ceil_le.mpr (by exact_mod_cast h)
  · have : q = 0 := le_antisymm h (not_lt.mp h0)
    simp [this]

theorem self_le_pyint_of_nonpos {q : ℚ} (h : q ≤ 0) : q ≤ (pyint q : ℚ) := by
  unfold pyint
  split_ifs with h0
  · exact Int.le_ceil q
  · have : q = 0 := le_antisymm h (not_lt.mp h0)
    simp [this]

theorem to_decimal_def (v : ℚ) (p : ℕ) :
    to_decimal v p = (roundHalfUp (v * 10 ^ p) : ℚ) / 10 ^ p := rfl

theorem to_decimal_sub_abs (v : ℚ) (p : ℕ) :
    |to_decimal v p - v| ≤ 1 / (2 * 10 ^ p) := by
  have h10 : (0 : ℚ) < 10 ^ p := by positivity
  have key : to_decimal v p - v =
      ((roundHalfUp (v * 10 ^ p) : ℚ) - v * 10 ^ p) / 10 ^ p := by
    rw [to_decimal_def]
    field_simp
    ring
  rw [key, abs_div, abs_of_pos h10, div_le_div_iff₀ h10 (by positivity)]
  have := roundHalfUp_sub_abs (v * 10 ^ p)
  calc |(roundHalfUp (v * 10 ^ p) : ℚ) - v * 10 ^ p| * (2 * 10 ^ p)
      ≤ (1 / 2) * (2 * 10 ^ p) := by
        apply mul_le_mul_of_nonneg_right this (by positivity)
    _ = 1 * 10 ^ p := by ring

theorem to_decimal_tie {v : ℚ} {p : ℕ}
    (h : |to_decimal v p - v| = 1 / (2 * 10 ^ p)) : |v| ≤ |to_decimal v p| := by
  have h10 : (0 : ℚ) < 10 ^ p := by positivity
  have key : to_decimal v p - v =
      ((roundHalfUp (v * 10 ^ p) : ℚ) - v * 10 ^ p) / 10 ^ p := by
    rw [to_decimal_def]
    field_simp
    ring
  rw [key, abs_div, abs_of_pos h10] at h
  have h2 : |(roundHalfUp (v * 10 ^ p) : ℚ) - v * 10 ^ p| = 1 / 2 := by
    have h3 : |(roundHalfUp (v * 10 ^ p) : ℚ) - v * 10 ^ p| =
        1 / (2 * 10 ^ p) * 10 ^ p := (div_eq_iff (ne_of_gt h10)).mp h
    rw [h3]
    field_simp
    ring
  have h4 := roundHalfUp_tie h2
  calc |v| = |v * 10 ^ p| / 10 ^ p := by
        rw [abs_mul, abs_of_pos h10]
        field_simp
    _ ≤ |(roundHalfUp (v * 10 ^ p) : ℚ)| / 10 ^ p := by gcongr
    _ = |to_decimal v p| := by rw [to_decimal_def, abs_div, abs_of_pos h10]

/-- C1: for every numeric value (int, float or Decimal, represented by its
exact rational value) and every number of places, `to_decimal` produces the
exact value rounded to exactly `places` fractional digits, round half up with
ties away from zero; with `places = 0` the result is an integer;
`normalize(0.5, 0) = 1` and `normalize(0.9876, 3) = 0.988` (where `0.9876`
denotes the exact value of the IEEE double, `2223877495995551/2^51`). -/
theorem C1_normalize_round_half_up :
    (∀ (v : ℚ) (p : ℕ), ∃ n : ℤ, to_decimal v p = (n : ℚ) / 10 ^ p) ∧
    (∀ (v : ℚ) (p : ℕ), |to_decimal v p - v| ≤ 1 / (2 * 10 ^ p)) ∧
    (∀ (v : ℚ) (p : ℕ),
      |to_decimal v p - v| = 1 / (2 * 10 ^ p) → |v| ≤ |to_decimal v p|) ∧
    (∀ v : ℚ, ∃ n : ℤ, to_decimal v 0 = (n : ℚ)) ∧
    to_decimal (1 / 2) 0 = 1 ∧
    to_decimal (2223877495995551 / 2251799813685248) 3 = 988 / 1000 := by
  refine ⟨fun v p => ⟨roundHalfUp (v * 10 ^ p), rfl⟩,
    fun v p => to_decimal_sub_abs v p,
    fun v p h => to_decimal_tie h,
    fun v => ⟨roundHalfUp (v * 10 ^ 0), by rw [to_decimal_def]; norm_num⟩,
    by norm_num [to_decimal, roundHalfUp],
    by norm_num [to_decimal, roundHalfUp]⟩

theorem C1_normalize_round_half_up_witness :
    |to_decimal (1 / 2) 0 - 1 / 2| = 1 / (2 * 10 ^ 0) ∧
    |(1 / 2 : ℚ)| ≤ |to_decimal (1 / 2) 0| := by
  have h : |to_decimal (1 / 2) 0 - 1 / 2| = 1 / (2 * 10 ^ 0) := by
    norm_num [to_decimal, roundHalfUp]
  exact ⟨h, C1_normalize_round_half_up.2.2.1 (1 / 2) 0 h⟩

/-- C3 counterexample: for the non-negative input `0.997` the ounces
component returned by `convert_lbs_to_lbs_ounces` is `16.0`, which is not in
the half-open interval `[0, 16)` the claim states. -/
theorem C3_counterexample :
    (0 : ℚ) ≤ 997 / 1000 ∧
    ¬((convert_lbs_to_lbs_ounces (997 / 1000)).2 < 16) := by
  constructor
  · norm_num
  · norm_num [convert_lbs_to_lbs_ounces, to_decimal, roundHalfUp, pyint]

/-- C3 (amended): for every non-negative pounds input the ounces component
lies in the closed interval `[0, 16]`; the right endpoint `16.0` is attained
when rounding to one decimal place pushes the fractional-pound part up (no
carry-over normalization is performed). -/
theorem C3_ounces_in_closed_range (lbs : ℚ) (h : 0 ≤ lbs) :
    0 ≤ (convert_lbs_to_lbs_ounces lbs).2 ∧
    (convert_lbs_to_lbs_ounces lbs).2 ≤ 16 := by
  unfold convert_lbs_to_lbs_ounces
  rw [pyint_of_nonneg h]
  simp only
  have hf0 : 0 ≤ lbs - (⌊lbs⌋ : ℚ) := by
    have := Int.floor_le lbs
    linarith
  have hf1 : lbs - (⌊lbs⌋ : ℚ) < 1 := by
    have := Int.lt_floor_add_one lbs
    linarith
  constructor
  · rw [to_decimal_def]
    apply div_nonneg _ (by positivity)
    exact_mod_cast roundHalfUp_nonneg (by positivity)
  · rw [to_decimal_def]
    have harg : (lbs - (⌊lbs⌋ : ℚ)) * 16 * 10 ^ 1 < 160 := by nlinarith
    have hm : roundHalfUp ((lbs - (⌊lbs⌋ : ℚ)) * 16 * 10 ^ 1) ≤ 160 := by
      have h1 := roundHalfUp_le ((lbs - (⌊lbs⌋ : ℚ)) * 16 * 10 ^ 1)
      have h2 : (roundHalfUp ((lbs - (⌊lbs⌋ : ℚ)) * 16 * 10 ^ 1) : ℚ) < 161 :=
        lt_of_le_of_lt h1 (by linarith)
      exact_mod_cast Int.lt_add_one_iff.mp (by exact_mod_cast h2)
    rw [div_le_iff₀ (by positivity)]
    calc (roundHalfUp ((lbs - (⌊lbs⌋ : ℚ)) * 16 * 10 ^ 1) : ℚ)
        ≤ 160 := by exact_mod_cast hm
      _ = 16 * 10 ^ 1 := by norm_num

theorem C3_ounces_in_closed_range_witness :
    0 ≤ (convert_lbs_to_lbs_ounces (17 / 2)).2 ∧
    (convert_lbs_to_lbs_ounces (17 / 2)).2 ≤ 16 :=
  C3_ounces_in_closed_range (17 / 2) (by norm_num)

/-- C7: the function `convert_sg_to_ppg` is the truncation toward zero of
`(to_decimal(gravity) − 1) × 1000` — which is in fact already an integer, so
truncation is exact — and the whole-pound component of
`convert_lbs_to_lbs_ounces` is the input truncated toward zero; both use
`pyint` (truncation), not rounding, as `1.9 → 1` pound (rounding would give
`2`) shows; `convert_sg_to_ppg 1.050 = 50`. -/
theorem C7_truncation_not_rounding :
    (∀ g : ℚ, ((convert_sg_to_ppg g : ℤ) : ℚ) = (to_decimal g - 1) * 1000) ∧
    (∀ g : ℚ, convert_sg_to_ppg g = pyint ((to_decimal g - 1) * 1000)) ∧
    (∀ lbs : ℚ, (convert_lbs_to_lbs_ounces lbs).1 = pyint lbs) ∧
    convert_sg_to_ppg (105 / 100) = 50 ∧
    (convert_lbs_to_lbs_ounces (19 / 10)).1 = 1 ∧
    roundHalfUp (19 / 10) = 2 := by
  have key : ∀ g : ℚ, (to_decimal g - 1) * 1000 =
      ((roundHalfUp (g * 10 ^ 3) - 1000 : ℤ) : ℚ) := by
    intro g
    rw [to_decimal_def]
    push_cast
    field_simp
    ring
  refine ⟨fun g => ?_, fun g => rfl, fun lbs => rfl,
    by norm_num [convert_sg_to_ppg, to_decimal, roundHalfUp, pyint],
    by norm_num [convert_lbs_to_lbs_ounces, pyint],
    by norm_num [roundHalfUp]⟩
  show ((pyint ((to_decimal g - 1) * 1000) : ℤ) : ℚ) = (to_decimal g - 1) * 1000
  rw [key, pyint_intCast]

/-- C8 counterexample: at the initial volume
`v = 0.0124999999999999999998` (an exact `Decimal` input), the code computes
`0.001` while `normalize(v × 1/25, 3)` is `0.000`: the constant in the source
is `Decimal(.04)`, the exact value of the *float* `.04`, which exceeds
`1/25`. -/
theorem C8_counterexample :
    calc_shrinkage_loss (124999999999999999998 / 10 ^ 22) ≠
      to_decimal ((124999999999999999998 / 10 ^ 22) * (1 / 25)) := by
  norm_num [calc_shrinkage_loss, constant_shrinkage_rate, to_decimal,
    roundHalfUp]

/-- C8 (amended): the identity `calc_shrinkage_loss v = normalize(v × C, 3)` holds where `C` is
the exact value of the IEEE double closest to `0.04`, namely
`5764607523034235 / 2^57 = 1/25 + 3/(25·2^57)` — not the exact rational
`1/25`; e.g. `calc_shrinkage_loss 5 = 0.200`. -/
theorem C8_shrinkage_uses_float_constant :
    (∀ v : ℚ, calc_shrinkage_loss v = to_decimal (v * constant_shrinkage_rate)) ∧
    constant_shrinkage_rate ≠ 1 / 25 ∧
    constant_shrinkage_rate - 1 / 25 = 3 / 3602879701896396800 ∧
    calc_shrinkage_loss 5 = 200 / 1000 := by
  refine ⟨fun v => rfl, by norm_num [constant_shrinkage_rate],
    by norm_num [constant_shrinkage_rate],
    by norm_num [calc_shrinkage_loss, constant_shrinkage_rate, to_decimal,
      roundHalfUp]⟩

/-! ## Bit-length and IEEE rounding lemmas -/

theorem lg2_bounds (n : ℕ) (h1 : 1 ≤ n) :
    2 ^ lg2 n ≤ n ∧ n < 2 ^ (lg2 n + 1) := by
  induction n using Nat.strong_induction_on with
  | _ n ih =>
    rw [lg2.eq_def]
    split_ifs with h
    · have hn : n = 1 := le_antisymm h h1
      subst hn
      norm_num
    · have h2 : 2 ≤ n := by omega
      have hd : 1 ≤ n / 2 := by omega
      have hlt : n / 2 < n := by omega
      obtain ⟨ha, hb⟩ := ih (n / 2) hlt hd
      constructor
      · calc 2 ^ (lg2 (n / 2) + 1) = 2 * 2 ^ lg2 (n / 2) := by ring
          _ ≤ 2 * (n / 2) := by omega
          _ ≤ n := by omega
      · calc n < 2 * (n / 2 + 1) := by omega
          _ ≤ 2 * 2 ^ (lg2 (n / 2) + 1) := by omega
          _ = 2 ^ (lg2 (n / 2) + 1 + 1) := by ring

theorem zpow_two_interval_unique {q : ℚ} {e f : ℤ}
    (he1 : (2 : ℚ) ^ e ≤ q) (he2 : q < (2 : ℚ) ^ (e + 1))
    (hf1 : (2 : ℚ) ^ f ≤ q) (hf2 : q < (2 : ℚ) ^ (f + 1)) : e = f := by
  by_contra h
  rcases lt_or_gt_of_ne h with hlt | hlt
  · have : (2 : ℚ) ^ (e + 1) ≤ (2 : ℚ) ^ f :=
      zpow_le_zpow_right₀ one_le_two (by omega)
    linarith
  · have : (2 : ℚ) ^ (f + 1) ≤ (2 : ℚ) ^ e :=
      zpow_le_zpow_right₀ one_le_two (by omega)
    linarith

theorem qexp_eq {q : ℚ} {e : ℤ} (h0 : 0 < q)
    (h1 : (2 : ℚ) ^ e ≤ q) (h2 : q < (2 : ℚ) ^ (e + 1)) : qexp q = e := by
  unfold qexp
  dsimp only
  have hnum : 0 < q.num := Rat.num_pos.mpr h0
  have hN : 1 ≤ q.num.natAbs := by omega
  have hD : 1 ≤ q.den := q.pos
  obtain ⟨hNa, hNb⟩ := lg2_bounds q.num.natAbs hN
  obtain ⟨hDa, hDb⟩ := lg2_bounds q.den hD
  set a : ℤ := (lg2 q.num.natAbs : ℤ) with ha_def
  set b : ℤ := (lg2 q.den : ℤ) with hb_def
  have hqnd : q = (q.num.natAbs : ℚ) / (q.den : ℚ) := by
    rw [Int.cast_natAbs]
    rw [abs_of_pos (by exact_mod_cast hnum)]
    exact (Rat.num_div_den q).symm
  have hDpos : (0 : ℚ) < (q.den : ℚ) := by exact_mod_cast hD
  -- `2 ^ (a - b - 1) < q`
  have hlow : (2 : ℚ) ^ (a - b - 1) < q := by
    rw [hqnd, lt_div_iff₀ hDpos]
    calc (2 : ℚ) ^ (a - b - 1) * (q.den : ℚ)
        < (2 : ℚ) ^ (a - b - 1) * (2 : ℚ) ^ (b + 1) := by
          have hdb' : (q.den : ℚ) < (2 : ℚ) ^ (b + 1) := by
            have : ((q.den : ℕ) : ℚ) < ((2 ^ (lg2 q.den + 1) : ℕ) : ℚ) := by
              exact_mod_cast hDb
            calc ((q.den : ℕ) : ℚ) < ((2 ^ (lg2 q.den + 1) : ℕ) : ℚ) := this
              _ = (2 : ℚ) ^ (b + 1) := by
                push_cast
                rw [← zpow_natCast]
                push_cast
                ring_nf
          exact mul_lt_mul_of_pos_left hdb' (by positivity)
      _ = (2 : ℚ) ^ a := by
          rw [← zpow_add₀ (by norm_num : (2 : ℚ) ≠ 0)]
          ring_nf
      _ ≤ (q.num.natAbs : ℚ) := by
          have : ((2 ^ lg2 q.num.natAbs : ℕ) : ℚ) ≤ ((q.num.natAbs : ℕ) : ℚ) := by
            exact_mod_cast hNa
          calc (2 : ℚ) ^ a = ((2 ^ lg2 q.num.natAbs : ℕ) : ℚ) := by
                push_cast
                rw [← zpow_natCast]
            _ ≤ (q.num.natAbs : ℚ) := this
  -- `q < 2 ^ (a - b + 1)`
  have hhigh : q < (2 : ℚ) ^ (a - b + 1) := by
    rw [hqnd, div_lt_iff₀ hDpos]
    calc (q.num.natAbs : ℚ) < (2 : ℚ) ^ (a + 1) := by
          have : ((q.num.natAbs : ℕ) : ℚ) < ((2 ^ (lg2 q.num.natAbs + 1) : ℕ) : ℚ) := by
            exact_mod_cast hNb
          calc ((q.num.natAbs : ℕ) : ℚ)
              < ((2 ^ (lg2 q.num.natAbs + 1) : ℕ) : ℚ) := this
            _ = (2 : ℚ) ^ (a + 1) := by
                push_cast
                rw [← zpow_natCast]
                push_cast
                ring_nf
      _ = (2 : ℚ) ^ (a - b + 1) * (2 : ℚ) ^ b := by
          rw [← zpow_add₀ (by norm_num : (2 : ℚ) ≠ 0)]
          ring_nf
      _ ≤ (2 : ℚ) ^ (a - b + 1) * (q.den : ℚ) := by
          have hdb' : (2 : ℚ) ^ b ≤ (q.den : ℚ) := by
            have : ((2 ^ lg2 q.den : ℕ) : ℚ) ≤ ((q.den : ℕ) : ℚ) := by
              exact_mod_cast hDa
            calc (2 : ℚ) ^ b = ((2 ^ lg2 q.den : ℕ) : ℚ) := by
                  push_cast
                  rw [← zpow_natCast]
              _ ≤ (q.den : ℚ) := this
          exact mul_le_mul_of_nonneg_left hdb' (by positivity)
  -- settle the branch analysis of `qexp`
  split_ifs with hc1 hc2
  · -- `q < 2 ^ e0`: the true exponent is `e0 - 1`
    exact zpow_two_interval_unique (le_of_lt hlow)
      (by rw [show a - b - 1 + 1 = a - b by ring]; exact hc1) h1 h2
  · -- `2 ^ (e0 + 1) ≤ q` contradicts `q < 2 ^ (a - b + 1)`
    exact absurd hc2 (not_le.mpr hhigh)
  · -- `2 ^ e0 ≤ q < 2 ^ (e0 + 1)`: the true exponent is `e0`
    exact zpow_two_interval_unique (not_lt.mp hc1) hhigh h1 h2

theorem fl_eval {q : ℚ} {e m : ℤ} (h0 : 0 < q)
    (h1 : (2 : ℚ) ^ e ≤ q) (h2 : q < (2 : ℚ) ^ (e + 1))
    (hm : rnEven (q * (2 : ℚ) ^ ((52 : ℤ) - e)) = m) :
    fl q = (m : ℚ) * (2 : ℚ) ^ (e - (52 : ℤ)) := by
  unfold fl
  rw [if_neg (ne_of_gt h0), if_pos h0, abs_of_pos h0, qexp_eq h0 h1 h2, hm]
  ring

/-- C2 counterexample: for the float inputs `0.005` (exact double value
`5764607523034235/2^60`) and `1.5`, the source's raw multiplication is
performed in binary floating point, and `mash_water_volume(0.005, 1.5)`
rounds to `0.007` while the exact decimal product `0.0075000000000000000156…`
rounds half-up to `0.008`: the inputs are *not* converted to Decimal before
the arithmetic. -/
theorem C2_counterexample :
    fl (5764607523034235 / 1152921504606846976) =
      5764607523034235 / 1152921504606846976 ∧
    fl (3 / 2) = 3 / 2 ∧
    calc_mash_water_volume_float
        (5764607523034235 / 1152921504606846976) (3 / 2) ≠
      to_decimal ((5764607523034235 / 1152921504606846976) * (3 / 2)) := by
  refine ⟨?_, ?_, ?_⟩
  · rw [fl_eval (e := -8) (m := 5764607523034235) (by norm_num) (by norm_num)
      (by norm_num) (by norm_num [rnEven])]
    norm_num
  · rw [fl_eval (e := 0) (m := 6755399441055744) (by norm_num) (by norm_num)
      (by norm_num) (by norm_num [rnEven])]
    norm_num
  · unfold calc_mash_water_volume_float
    rw [show (5764607523034235 / 1152921504606846976 : ℚ) * (3 / 2) =
        17293822569102705 / 2305843009213693952 by norm_num]
    rw [fl_eval (e := -8) (m := 8646911284551352) (by norm_num) (by norm_num)
      (by norm_num) (by norm_num [rnEven])]
    norm_num [to_decimal, roundHalfUp]

/-- C2 (amended): the functions `calc_expected_yield`, `calc_mash_water_volume` and
`calc_total_gravity_points` multiply their raw inputs *before* any Decimal
conversion (only `to_decimal` converts the finished product), so the claimed
identity `result = normalize(a × b, 3)` holds whenever the raw product is
exact — always for int/Decimal inputs, and for float inputs exactly when the
double-precision product `fl(a·b)` is not rounded; when `fl(a·b) ≠ a·b` the
result is `normalize(fl(a·b), 3)` instead. -/
theorem C2_products_before_conversion :
    (∀ a b : ℚ, calc_expected_yield a b = to_decimal (a * b)) ∧
    (∀ a b : ℚ, calc_mash_water_volume a b = to_decimal (a * b)) ∧
    (∀ g v : ℚ, calc_total_gravity_points g v =
      to_decimal ((convert_sg_to_ppg g : ℚ) * v)) ∧
    (∀ a b : ℚ, fl (a * b) = a * b →
      calc_expected_yield_float a b = to_decimal (a * b)) ∧
    (∀ a b : ℚ, fl (a * b) = a * b →
      calc_mash_water_volume_float a b = to_decimal (a * b)) := by
  refine ⟨fun a b => rfl, fun a b => rfl, fun g v => rfl,
    fun a b h => ?_, fun a b h => ?_⟩
  · unfold calc_expected_yield_float
    rw [h]
  · unfold calc_mash_water_volume_float
    rw [h]

theorem C2_products_before_conversion_witness :
    fl ((1 / 2) * 3) = (1 / 2) * 3 ∧
    calc_mash_water_volume_float (1 / 2) 3 = to_decimal ((1 / 2) * 3) := by
  have hfl : fl ((1 / 2 : ℚ) * 3) = (1 / 2) * 3 := by
    rw [show ((1 / 2 : ℚ) * 3) = 3 / 2 by norm_num]
    rw [fl_eval (e := 0) (m := 6755399441055744) (by norm_num) (by norm_num)
      (by norm_num) (by norm_num [rnEven])]
    norm_num
  exact ⟨hfl, C2_products_before_conversion.2.2.2.2 (1 / 2) 3 hfl⟩

/-- C5 counterexample: the call `grain_qty(100, 0, 0)` has expected yield 0, but the
failure is `InvalidOperation` (Python `Decimal` raises it for `0/0`), not
`DivisionByZero`, refuting "fails with DivisionByZero exactly when
expected_yield is 0". -/
theorem C5_counterexample :
    calc_grain_qty 100 0 0 = Except.error PyErr.invalidOperation ∧
    PyErr.invalidOperation ≠ PyErr.divisionByZero := by
  constructor
  · norm_num [calc_grain_qty, pydiv, Except.map]
  · intro h
    exact PyErr.noConfusion h

/-- C5 (amended): a zero denominator always fails, but with
`DivisionByZero` only when the numerator is nonzero and with
`InvalidOperation` when the numerator is zero too: `grain_qty` fails iff
`expected_yield = 0` (`DivisionByZero` iff additionally
`total_gravity_points × ratio ≠ 0`); `strike_temp` fails with
`DivisionByZero` exactly when the water-grist ratio is 0 (its numerator
`0.2` is never zero); `infusion_volume` fails iff `infusion_temp =
target_temp` (`DivisionByZero` iff additionally the numerator is nonzero,
and `InvalidOperation` iff additionally the numerator is zero);
in all non-failing cases the normalized formula value is returned. -/
theorem C5_division_by_zero_conditions :
    (∀ t r e : ℚ,
      calc_grain_qty t r e = Except.error PyErr.divisionByZero ↔
        e = 0 ∧ t * r ≠ 0) ∧
    (∀ t r e : ℚ,
      calc_grain_qty t r e = Except.error PyErr.invalidOperation ↔
        e = 0 ∧ t * r = 0) ∧
    (∀ t r e : ℚ, e ≠ 0 →
      calc_grain_qty t r e = Except.ok (to_decimal (t * r / e))) ∧
    (∀ w ti tt : ℚ,
      calc_strike_temp w ti tt = Except.error PyErr.divisionByZero ↔ w = 0) ∧
    (∀ w ti tt : ℚ, w ≠ 0 →
      calc_strike_temp w ti tt =
        Except.ok (to_decimal (0.2 / w * (tt - ti) + tt))) ∧
    (∀ ti tt it wa g : ℚ,
      calc_infusion_volume ti tt it wa g =
          Except.error PyErr.divisionByZero ↔
        it = tt ∧ (tt - ti) * (0.2 * g + wa) ≠ 0) ∧
    (∀ ti tt it wa g : ℚ, it ≠ tt →
      calc_infusion_volume ti tt it wa g =
        Except.ok (to_decimal ((tt - ti) * (0.2 * g + wa) / (it - tt)))) ∧
    (∀ ti tt it wa g : ℚ,
      calc_infusion_volume ti tt it wa g =
          Except.error PyErr.invalidOperation ↔
        it = tt ∧ (tt - ti) * (0.2 * g + wa) = 0) := by
  refine ⟨fun t r e => ?_, fun t r e => ?_, fun t r e h => ?_,
    fun w ti tt => ?_, fun w ti tt h => ?_,
    fun ti tt it wa g => ?_, fun ti tt it wa g h => ?_,
    fun ti tt it wa g => ?_⟩
  · unfold calc_grain_qty pydiv
    split_ifs with h1 h2 <;>
      simp_all [Except.map]
  · unfold calc_grain_qty pydiv
    split_ifs with h1 h2 <;>
      simp_all [Except.map]
  · unfold calc_grain_qty pydiv
    rw [if_neg h]
    rfl
  · unfold calc_strike_temp pydiv
    split_ifs with h1 h2 <;>
      simp_all [Except.map]
    · norm_num at h2
  · unfold calc_strike_temp pydiv
    rw [if_neg h]
    rfl
  · unfold calc_infusion_volume pydiv
    split_ifs with h1 h2
    · simp only [Except.map]
      constructor
      · intro hc
        exact absurd hc (by simp)
      · intro ⟨hc1, hc2⟩
        exact absurd h2 hc2
    · simp only [Except.map]
      constructor
      · intro _
        exact ⟨by linarith [sub_eq_zero.mp h1], h2⟩
      · intro _
        trivial
    · simp only [Except.map]
      constructor
      · intro hc
        exact absurd hc (by simp)
      · intro ⟨hc1, hc2⟩
        exact absurd (by rw [hc1]; ring : it - tt = 0) h1
  · unfold calc_infusion_volume pydiv
    rw [if_neg (sub_ne_zero.mpr h)]
    rfl
  · unfold calc_infusion_volume pydiv
    split_ifs with h1 h2
    · simp only [Except.map]
      constructor
      · intro _
        exact ⟨by linarith [sub_eq_zero.mp h1], h2⟩
      · intro _
        trivial
    · simp only [Except.map]
      constructor
      · intro hc
        exact absurd hc (by simp)
      · intro ⟨hc1, hc2⟩
        exact absurd hc2 h2
    · simp only [Except.map]
      constructor
      · intro hc
        exact absurd hc (by simp)
      · intro ⟨hc1, hc2⟩
        exact absurd (by rw [hc1]; ring : it - tt = 0) h1

theorem C5_division_by_zero_conditions_witness :
    calc_grain_qty 300 (3 / 4) 25 = Except.ok 9 := by
  have h := C5_division_by_zero_conditions.2.2.1 300 (3 / 4) 25 (by norm_num)
  rw [h]
  norm_num [to_decimal, roundHalfUp]

/-! ## Evaluation lemmas for the grain bill -/

theorem calc_grain_qty_of_ne {t r e : ℚ} (h : e ≠ 0) :
    calc_grain_qty t r e = Except.ok (to_decimal (t * r / e)) := by
  unfold calc_grain_qty pydiv
  rw [if_neg h]
  rfl

theorem grain_bill_cons_found {g : String} {mg : ℚ}
    (hg : gravity_lookup g = some mg) (tgp r e : ℚ)
    (rest : List (String × ℚ × ℚ)) :
    calc_grain_bill_from_points tgp ((g, r, e) :: rest) =
      (calc_grain_qty tgp r
        (calc_expected_yield ((convert_sg_to_ppg mg : ℤ) : ℚ) e)).bind
        (fun qty => (calc_grain_bill_from_points tgp rest).bind
          (fun tail =>
            Except.ok ((g, convert_lbs_to_lbs_ounces qty) :: tail))) := by
  simp only [calc_grain_bill_from_points]
  rw [hg]
  rfl

theorem grain_bill_cons_missing {g : String}
    (hg : gravity_lookup g = none) (tgp r e : ℚ)
    (rest : List (String × ℚ × ℚ)) :
    calc_grain_bill_from_points tgp ((g, r, e) :: rest) =
      Except.error (PyErr.unknownIngredient g) := by
  simp only [calc_grain_bill_from_points]
  rw [hg]
  rfl

/-- A recipe ingredient spec whose grain is in the reference table and whose
rounded expected yield is nonzero, so that its grain-bill entry computes
without error. -/
def spec_ok (s : String × ℚ × ℚ) : Prop :=
  ∃ mg, gravity_lookup s.1 = some mg ∧
    calc_expected_yield ((convert_sg_to_ppg mg : ℤ) : ℚ) s.2.2 ≠ 0

/-- C4 counterexample: with every ingredient name present in the table, a
spec with efficiency 0 makes `calc_grain_bill` raise `DivisionByZero` instead
of returning one entry per spec. -/
theorem C4_counterexample :
    gravity_lookup "American Wheat" = some (1038 / 1000) ∧
    calc_grain_bill (1052 / 1000) (11 / 2) [("American Wheat", 1, 0)] =
      Except.error PyErr.divisionByZero := by
  have hlook : gravity_lookup "American Wheat" = some (1038 / 1000) := by
    simp +decide [gravity_lookup, max_gravities, List.lookup]
    norm_num
  refine ⟨hlook, ?_⟩
  have htgp : calc_total_gravity_points (1052 / 1000) (11 / 2) = 286 := by
    norm_num [calc_total_gravity_points, convert_sg_to_ppg, to_decimal,
      roundHalfUp, pyint]
  have hppg : convert_sg_to_ppg (1038 / 1000) = 38 := by
    norm_num [convert_sg_to_ppg, to_decimal, roundHalfUp, pyint]
  have hey : calc_expected_yield ((38 : ℤ) : ℚ) 0 = 0 := by
    norm_num [calc_expected_yield, to_decimal, roundHalfUp]
  have hqty : calc_grain_qty 286 1 0 = Except.error PyErr.divisionByZero := by
    norm_num [calc_grain_qty, pydiv, Except.map]
  unfold calc_grain_bill
  rw [htgp, grain_bill_cons_found hlook, hppg, hey, hqty]
  rfl

/-- C4 (amended): for every target gravity, volume and ordered recipe list in
which every ingredient name is present in the table *and* every spec's
rounded expected yield is nonzero, `calc_grain_bill` returns exactly one
entry per spec, in input order, the entry for `(name, ratio, efficiency)`
being `name` paired with `convert_lbs_to_lbs_ounces` of
`grain_qty(total_gravity_points(gravity, volume), ratio,
expected_yield(sg_to_ppg(table[name]), efficiency))`. -/
theorem C4_grain_bill_composes (tg vol : ℚ)
    (specs : List (String × ℚ × ℚ)) (h : ∀ s ∈ specs, spec_ok s) :
    calc_grain_bill tg vol specs = Except.ok (specs.map (fun s =>
      (s.1, convert_lbs_to_lbs_ounces (to_decimal
        (calc_total_gravity_points tg vol * s.2.1 /
          calc_expected_yield
            ((convert_sg_to_ppg ((gravity_lookup s.1).getD 0) : ℤ) : ℚ)
            s.2.2))))) := by
  unfold calc_grain_bill
  revert h
  induction specs with
  | nil => intro h; rfl
  | cons s rest ih =>
    intro h
    obtain ⟨g, r, e⟩ := s
    obtain ⟨mg, hmg, hey⟩ := h _ (List.mem_cons_self _ _)
    rw [grain_bill_cons_found hmg, calc_grain_qty_of_ne hey,
      ih (fun s hs => h s (List.mem_cons_of_mem _ hs))]
    simp [Except.bind, hmg]

theorem C4_grain_bill_composes_witness :
    calc_grain_bill (1052 / 1000) (11 / 2)
      [("American Wheat", 67 / 100, 68 / 100),
       ("American Pale (2-Row)", 33 / 100, 68 / 100)] =
      Except.ok [("American Wheat", (7, 67 / 10)),
        ("American Pale (2-Row)", (3, 12))] := by
  have hw : gravity_lookup "American Wheat" = some (1038 / 1000) := by
    simp +decide [gravity_lookup, max_gravities, List.lookup]
    norm_num
  have hp : gravity_lookup "American Pale (2-Row)" = some (1037 / 1000) := by
    simp +decide [gravity_lookup, max_gravities, List.lookup]
    norm_num
  have h := C4_grain_bill_composes (1052 / 1000) (11 / 2)
    [("American Wheat", 67 / 100, 68 / 100),
     ("American Pale (2-Row)", 33 / 100, 68 / 100)] ?_
  · rw [h]
    have htgp : calc_total_gravity_points (1052 / 1000) (11 / 2) = 286 := by
      norm_num [calc_total_gravity_points, convert_sg_to_ppg, to_decimal,
        roundHalfUp, pyint]
    simp only [List.map, htgp, hw, hp, Option.getD_some]
    have hppgw : convert_sg_to_ppg (1038 / 1000) = 38 := by
      norm_num [convert_sg_to_ppg, to_decimal, roundHalfUp, pyint]
    have hppgp : convert_sg_to_ppg (1037 / 1000) = 37 := by
      norm_num [convert_sg_to_ppg, to_decimal, roundHalfUp, pyint]
    rw [hppgw, hppgp]
    have heyw : calc_expected_yield ((38 : ℤ) : ℚ) (68 / 100) = 2584 / 100 := by
      norm_num [calc_expected_yield, to_decimal, roundHalfUp]
    have heyp : calc_expected_yield ((37 : ℤ) : ℚ) (68 / 100) = 2516 / 100 := by
      norm_num [calc_expected_yield, to_decimal, roundHalfUp]
    rw [heyw, heyp]
    have hq1 : to_decimal (286 * (67 / 100) / (2584 / 100)) = 7416 / 1000 := by
      norm_num [to_decimal, roundHalfUp]
    have hq2 : to_decimal (286 * (33 / 100) / (2516 / 100)) = 3751 / 1000 := by
      norm_num [to_decimal, roundHalfUp]
    rw [hq1, hq2]
    norm_num [convert_lbs_to_lbs_ounces, to_decimal, roundHalfUp, pyint]
  · intro s hs
    simp only [List.mem_cons, List.not_mem_nil, or_false] at hs
    rcases hs with rfl | rfl
    · exact ⟨1038 / 1000, hw, by
        norm_num [convert_sg_to_ppg, calc_expected_yield, to_decimal,
          roundHalfUp, pyint]⟩
    · exact ⟨1037 / 1000, hp, by
        norm_num [convert_sg_to_ppg, calc_expected_yield, to_decimal,
          roundHalfUp, pyint]⟩

/-- C6 counterexample: a recipe containing an unknown ingredient does not
always fail with `UnknownIngredient` — here the earlier, valid entry fails
first with `DivisionByZero` (its efficiency is 0), before the unknown name is
reached. -/
theorem C6_counterexample :
    gravity_lookup "No Such Grain" = none ∧
    calc_grain_bill (1052 / 1000) (11 / 2)
      [("American Wheat", 1, 0), ("No Such Grain", 1, 68 / 100)] =
      Except.error PyErr.divisionByZero ∧
    PyErr.divisionByZero ≠ PyErr.unknownIngredient "No Such Grain" := by
  have hnone : gravity_lookup "No Such Grain" = none := by
    simp +decide [gravity_lookup, max_gravities, List.lookup]
  have hlook : gravity_lookup "American Wheat" = some (1038 / 1000) := by
    simp +decide [gravity_lookup, max_gravities, List.lookup]
    norm_num
  refine ⟨hnone, ?_, by intro h; exact PyErr.noConfusion h⟩
  have htgp : calc_total_gravity_points (1052 / 1000) (11 / 2) = 286 := by
    norm_num [calc_total_gravity_points, convert_sg_to_ppg, to_decimal,
      roundHalfUp, pyint]
  have hppg : convert_sg_to_ppg (1038 / 1000) = 38 := by
    norm_num [convert_sg_to_ppg, to_decimal, roundHalfUp, pyint]
  have hey : calc_expected_yield ((38 : ℤ) : ℚ) 0 = 0 := by
    norm_num [calc_expected_yield, to_decimal, roundHalfUp]
  have hqty : calc_grain_qty 286 1 0 = Except.error PyErr.divisionByZero := by
    norm_num [calc_grain_qty, pydiv, Except.map]
  unfold calc_grain_bill
  rw [htgp, grain_bill_cons_found hlook, hppg, hey, hqty]
  rfl

/-- C6 (amended): whenever some ingredient name of the recipe is absent from
the reference table, `calc_grain_bill` never returns a result — no partial
output is committed; the failure is `UnknownIngredient` (naming the absent
ingredient) provided every spec *before* the first absent name computes
without error; an earlier failing spec (e.g. one with expected yield 0) may
fail first with a different error. -/
theorem C6_no_partial_output (tg vol : ℚ) :
    (∀ specs : List (String × ℚ × ℚ),
      (∃ s ∈ specs, gravity_lookup s.1 = none) →
      ∀ l, calc_grain_bill tg vol specs ≠ Except.ok l) ∧
    (∀ (pre rest : List (String × ℚ × ℚ)) (g : String) (r e : ℚ),
      gravity_lookup g = none → (∀ s ∈ pre, spec_ok s) →
      calc_grain_bill tg vol (pre ++ (g, r, e) :: rest) =
        Except.error (PyErr.unknownIngredient g)) := by
  constructor
  · intro specs hex
    induction specs with
    | nil =>
      rcases hex with ⟨s, hs, _⟩
      exact absurd hs (List.not_mem_nil s)
    | cons a rest ih =>
      intro l hok
      obtain ⟨g, r, e⟩ := a
      unfold calc_grain_bill at hok
      rcases hmg : gravity_lookup g with _ | mg
      · rw [grain_bill_cons_missing hmg] at hok
        exact Except.noConfusion hok
      · rcases hex with ⟨s, hs, hnone⟩
        rcases List.mem_cons.mp hs with rfl | hs'
        · rw [hmg] at hnone
          exact Option.noConfusion hnone
        · rw [grain_bill_cons_found hmg] at hok
          rcases hqty : calc_grain_qty (calc_total_gravity_points tg vol) r
              (calc_expected_yield ((convert_sg_to_ppg mg : ℤ) : ℚ) e) with
            err | q
          · rw [hqty] at hok
            exact Except.noConfusion hok
          · rw [hqty] at hok
            rcases hrest : calc_grain_bill_from_points
                (calc_total_gravity_points tg vol) rest with err | tail
            · rw [hrest] at hok
              exact Except.noConfusion hok
            · exact ih ⟨s, hs', hnone⟩ tail hrest
  · intro pre
    induction pre with
    | nil =>
      intro rest g r e hg _
      unfold calc_grain_bill
      exact grain_bill_cons_missing hg _ _ _ _
    | cons a pre ih =>
      intro rest g r e hg hpre
      obtain ⟨g0, r0, e0⟩ := a
      obtain ⟨mg, hmg, hey⟩ := hpre _ (List.mem_cons_self _ _)
      unfold calc_grain_bill
      rw [List.cons_append, grain_bill_cons_found hmg,
        calc_grain_qty_of_ne hey]
      have htail := ih rest g r e hg
        (fun s hs => hpre s (List.mem_cons_of_mem _ hs))
      unfold calc_grain_bill at htail
      rw [htail]
      rfl

theorem C6_no_partial_output_witness :
    calc_grain_bill (1052 / 1000) (11 / 2)
      [("American Wheat", 67 / 100, 68 / 100),
       ("No Such Grain", 1 / 2, 68 / 100)] =
      Except.error (PyErr.unknownIngredient "No Such Grain") := by
  have hnone : gravity_lookup "No Such Grain" = none := by
    simp +decide [gravity_lookup, max_gravities, List.lookup]
  have hw : gravity_lookup "American Wheat" = some (1038 / 1000) := by
    simp +decide [gravity_lookup, max_gravities, List.lookup]
    norm_num
  have h := (C6_no_partial_output (1052 / 1000) (11 / 2)).2
    [("American Wheat", 67 / 100, 68 / 100)] [] "No Such Grain" (1 / 2)
    (68 / 100) hnone ?_
  · exact h
  · intro s hs
    simp only [List.mem_cons, List.not_mem_nil, or_false] at hs
    subst hs
    exact ⟨1038 / 1000, hw, by
      norm_num [convert_sg_to_ppg, calc_expected_yield, to_decimal,
        roundHalfUp, pyint]⟩

theorem pyint_eval_neg {q : ℚ} {n : ℤ} (h0 : q < 0)
    (h1 : (n : ℚ) - 1 < q) (h2 : q ≤ (n : ℚ)) : pyint q = n := by
  unfold pyint
  rw [if_pos h0]
  exact Int.ceil_eq_iff.mpr ⟨h1, h2⟩

theorem convert_sg_to_ppg_zero : convert_sg_to_ppg 0 = -1000 := by
  have harg : ((to_decimal 0 - 1) * 1000 : ℚ) = ((-1000 : ℤ) : ℚ) := by
    norm_num [to_decimal, roundHalfUp]
  unfold convert_sg_to_ppg
  rw [harg, pyint_intCast]

/-- C10 counterexample: at the positive target gravity `1.0` (with positive
volume, ratio and efficiency) the recipe `[("British Caramalt", 0.5, 0.68)]`
produces weight `(0, 0.0)` — the ounces component is *not* negative, because
the total gravity points are `0`, refuting the claim as universally stated
over all positive gravities. -/
theorem C10_counterexample :
    (0 : ℚ) < 1 ∧
    calc_grain_bill 1 (11 / 2) [("British Caramalt", 1 / 2, 17 / 25)] =
      Except.ok [("British Caramalt", (0, 0))] := by
  refine ⟨by norm_num, ?_⟩
  have hlook : gravity_lookup "British Caramalt" = some 0 := by
    simp +decide [gravity_lookup, max_gravities, List.lookup]
    norm_num
  have htgp : calc_total_gravity_points 1 (11 / 2) = 0 := by
    norm_num [calc_total_gravity_points, convert_sg_to_ppg, to_decimal,
      roundHalfUp, pyint]
  have hppg : convert_sg_to_ppg 0 = -1000 := convert_sg_to_ppg_zero
  have hey : calc_expected_yield ((-1000 : ℤ) : ℚ) (17 / 25) = -680 := by
    norm_num [calc_expected_yield, to_decimal, roundHalfUp]
  have hqty : calc_grain_qty 0 (1 / 2) (-680) = Except.ok 0 := by
    rw [calc_grain_qty_of_ne (by norm_num)]
    norm_num [to_decimal, roundHalfUp]
  unfold calc_grain_bill
  rw [htgp, grain_bill_cons_found hlook, hppg, hey, hqty]
  have hoz : convert_lbs_to_lbs_ounces 0 = (0, 0) := by
    norm_num [convert_lbs_to_lbs_ounces, to_decimal, roundHalfUp, pyint]
  simp [Except.bind, calc_grain_bill_from_points, hoz]

/-- C10 (amended): the reference table maps `British Caramalt` and
`Franco-Belges Kiln Coffee` to maximum gravity `0.00`, whose PPG conversion
is `-1000`; for any such ingredient, whenever the recipe's total gravity
points are positive, the ratio is positive and the rounded expected yield
`normalize(-1000 × efficiency, 3)` is negative (nonzero), `calc_grain_bill`
raises no error and returns a nonpositive weight: the rounded grain quantity
is `≤ 0` and both components of the pounds-ounces pair are `≤ 0` (the weight
is `0`, not negative, when rounding sends the quantity to zero). -/
theorem C10_zero_gravity_ingredients :
    gravity_lookup "British Caramalt" = some 0 ∧
    gravity_lookup "Franco-Belges Kiln Coffee" = some 0 ∧
    convert_sg_to_ppg 0 = -1000 ∧
    ∀ (grain : String) (tg vol r e : ℚ),
      gravity_lookup grain = some 0 →
      0 < calc_total_gravity_points tg vol →
      0 < r →
      calc_expected_yield ((-1000 : ℤ) : ℚ) e < 0 →
      calc_grain_bill tg vol [(grain, r, e)] =
          Except.ok [(grain, convert_lbs_to_lbs_ounces
            (to_decimal (calc_total_gravity_points tg vol * r /
              calc_expected_yield ((-1000 : ℤ) : ℚ) e)))] ∧
        to_decimal (calc_total_gravity_points tg vol * r /
          calc_expected_yield ((-1000 : ℤ) : ℚ) e) ≤ 0 ∧
        (convert_lbs_to_lbs_ounces
          (to_decimal (calc_total_gravity_points tg vol * r /
            calc_expected_yield ((-1000 : ℤ) : ℚ) e))).1 ≤ 0 ∧
        (convert_lbs_to_lbs_ounces
          (to_decimal (calc_total_gravity_points tg vol * r /
            calc_expected_yield ((-1000 : ℤ) : ℚ) e))).2 ≤ 0 := by
  have hppg : convert_sg_to_ppg 0 = -1000 := convert_sg_to_ppg_zero
  refine ⟨by
      simp +decide [gravity_lookup, max_gravities, List.lookup]
      norm_num,
    by
      simp +decide [gravity_lookup, max_gravities, List.lookup]
      norm_num,
    hppg, ?_⟩
  intro grain tg vol r e hg htgp hr hey
  set ey : ℚ := calc_expected_yield ((-1000 : ℤ) : ℚ) e with hey_def
  set tgp : ℚ := calc_total_gravity_points tg vol with htgp_def
  set q : ℚ := to_decimal (tgp * r / ey) with hq_def
  have hq0 : q ≤ 0 := by
    have harg : tgp * r / ey < 0 :=
      div_neg_of_pos_of_neg (mul_pos htgp hr) hey
    rw [hq_def, to_decimal_def]
    apply div_nonpos_of_nonpos_of_nonneg _ (by positivity)
    have hrnd : roundHalfUp (tgp * r / ey * 10 ^ 3) ≤ 0 :=
      roundHalfUp_nonpos
        (mul_nonpos_of_nonpos_of_nonneg harg.le (by positivity))
    exact_mod_cast hrnd
  refine ⟨?_, hq0, pyint_nonpos hq0, ?_⟩
  · unfold calc_grain_bill
    rw [← htgp_def, grain_bill_cons_found hg, hppg,
      calc_grain_qty_of_ne (ne_of_lt hey)]
    rfl
  · unfold convert_lbs_to_lbs_ounces
    simp only
    have hfrac : q - (pyint q : ℚ) ≤ 0 :=
      sub_nonpos.mpr (self_le_pyint_of_nonpos hq0)
    rw [to_decimal_def]
    apply div_nonpos_of_nonpos_of_nonneg _ (by positivity)
    have hrnd : roundHalfUp ((q - (pyint q : ℚ)) * 16 * 10 ^ 1) ≤ 0 :=
      roundHalfUp_nonpos (by nlinarith)
    exact_mod_cast hrnd

theorem C10_zero_gravity_ingredients_witness :
    calc_grain_bill (1052 / 1000) (11 / 2)
      [("British Caramalt", 1 / 2, 17 / 25)] =
      Except.ok [("British Caramalt", (0, -17 / 5))] := by
  have htgp : calc_total_gravity_points (1052 / 1000) (11 / 2) = 286 := by
    norm_num [calc_total_gravity_points, convert_sg_to_ppg, to_decimal,
      roundHalfUp, pyint]
  have hey : calc_expected_yield ((-1000 : ℤ) : ℚ) (17 / 25) = -680 := by
    norm_num [calc_expected_yield, to_decimal, roundHalfUp]
  have h := C10_zero_gravity_ingredients.2.2.2 "British Caramalt"
    (1052 / 1000) (11 / 2) (1 / 2) (17 / 25)
    C10_zero_gravity_ingredients.1
    (by rw [htgp]; norm_num) (by norm_num) (by rw [hey]; norm_num)
  rw [h.1, htgp, hey]
  have hq : to_decimal ((286 : ℚ) * (1 / 2) / (-680)) = -21 / 100 := by
    norm_num [to_decimal, roundHalfUp]
  rw [hq]
  have hpy : pyint (-21 / 100 : ℚ) = 0 :=
    pyint_eval_neg (by norm_num) (by norm_num) (by norm_num)
  unfold convert_lbs_to_lbs_ounces
  rw [hpy]
  norm_num [to_decimal, roundHalfUp]

/-! ## Dynamic typing model for `to_decimal`'s argument checks -/

/-- A Python object as far as `to_decimal`'s argument validation can observe
it: ints, floats and Decimals carry their exact rational value, bools are
`numbers.Number`s and `int`s in Python, strings are not numbers, and complex
numbers are `numbers.Number`s that the `Decimal` constructor rejects. -/
inductive PyObj where
  | pint : ℤ → PyObj
  | pfloat : ℚ → PyObj
  | pdec : ℚ → PyObj
  | pbool : Bool → PyObj
  | pstr : String → PyObj
  | pcomplex : ℚ → ℚ → PyObj
deriving DecidableEq, Repr

/-- Check `isinstance(value, numbers.Number)`: everything except strings here. -/
def isNumber : PyObj → Bool
  | .pstr _ => false
  | _ => true

/-- Check `isinstance(value, int)`: Python `bool` is a subtype of `int`. -/
def isIntType : PyObj → Bool
  | .pint _ => true
  | .pbool _ => true
  | _ => false

/-- The integer value of an int-typed object (`True == 1`, `False == 0`);
meaningless (0) otherwise, guarded by `isIntType` at every use. -/
def asInt : PyObj → ℤ
  | .pint n => n
  | .pbool b => if b then 1 else 0
  | _ => 0

/-- Conversion `Decimal(value)`: exact for ints, floats, Decimals and bools; raises
`TypeError` (here `invalidArgument`) for complex numbers.  Strings never
reach this conversion in `to_decimal` — the `isinstance(value, Number)`
check precedes it — and are mapped to the same error for definiteness. -/
def decimalOfNumber : PyObj → Except PyErr ℚ
  | .pint n => .ok (n : ℚ)
  | .pfloat q => .ok q
  | .pdec q => .ok q
  | .pbool b => .ok (if b then 1 else 0)
  | .pcomplex _ _ => .error .invalidArgument
  | .pstr _ => .error .invalidArgument

/-- Function `to_decimal` (calculator.py lines 29–55) with its dynamic argument
checks, in source order: the `isinstance(value, Number)` check
(`TypeError`), the `isinstance(decimal_places, int)` check (`TypeError`),
the `Decimal(value)` conversion, then the branch on `decimal_places` whose
`else` arm raises `ValueError` for negative places.  `TypeError` and
`ValueError` are both `InvalidArgument` in the spec's vocabulary. -/
def to_decimal_py (value decimal_places : PyObj) : Except PyErr ℚ :=
  if isNumber value = false then .error .invalidArgument
  else if isIntType decimal_places = false then .error .invalidArgument
  else
    match decimalOfNumber value with
    | .error err => .error err
    | .ok q =>
      if 0 < asInt decimal_places then
        .ok (to_decimal q (asInt decimal_places).toNat)
      else if asInt decimal_places = 0 then .ok (to_decimal q 0)
      else .error .invalidArgument

/-- Predicate deciding whether `value` counts as numeric for the spec's §4.1 contract exactly when
`to_decimal` can use it: an integer, a float, a Decimal, or a bool (a
Python int).  A string fails the `Number` check; a complex number passes it
but is rejected by the `Decimal` constructor. -/
def numericValue : PyObj → Bool
  | .pint _ => true
  | .pfloat _ => true
  | .pdec _ => true
  | .pbool _ => true
  | .pstr _ => false
  | .pcomplex _ _ => false

/-- C9: `to_decimal` fails — always with `InvalidArgument` — if and only if
the value is not numeric, the places argument is not of integer type, or the
places argument is negative; on such inputs no result value is produced, and
on all other inputs a value is produced. -/
theorem C9_normalize_invalid_argument (value places : PyObj) :
    ((∃ err, to_decimal_py value places = Except.error err) ↔
      numericValue value = false ∨ isIntType places = false ∨
        asInt places < 0) ∧
    (∀ err, to_decimal_py value places = Except.error err →
      err = PyErr.invalidArgument) ∧
    (numericValue value = true → isIntType places = true →
      0 ≤ asInt places → ∃ q, to_decimal_py value places = Except.ok q) := by
  have hbranch : ∀ (q : ℚ) (n : ℤ),
      ((∃ err, (if 0 < n then Except.ok (to_decimal q n.toNat)
          else if n = 0 then Except.ok (to_decimal q 0)
          else (Except.error PyErr.invalidArgument : Except PyErr ℚ)) =
          Except.error err) ↔ n < 0) ∧
      (∀ err, (if 0 < n then Except.ok (to_decimal q n.toNat)
          else if n = 0 then Except.ok (to_decimal q 0)
          else (Except.error PyErr.invalidArgument : Except PyErr ℚ)) =
          Except.error err → err = PyErr.invalidArgument) ∧
      (0 ≤ n → ∃ q', (if 0 < n then Except.ok (to_decimal q n.toNat)
          else if n = 0 then Except.ok (to_decimal q 0)
          else (Except.error PyErr.invalidArgument : Except PyErr ℚ)) =
          Except.ok q') := by
    intro q n
    refine ⟨⟨?_, ?_⟩, ?_, ?_⟩
    · rintro ⟨err, h⟩
      split_ifs at h with h1 h2 <;>
        first
        | exact Except.noConfusion h
        | omega
    · intro hneg
      rw [if_neg (by omega), if_neg (by omega)]
      exact ⟨_, rfl⟩
    · intro err h
      split_ifs at h with h1 h2 <;>
        first
        | exact Except.noConfusion h
        | (injection h with h'
           exact h'.symm)
    · intro hnn
      rcases lt_or_eq_of_le hnn with h1 | h1
      · rw [if_pos h1]
        exact ⟨_, rfl⟩
      · rw [if_neg (by omega), if_pos (by omega)]
        exact ⟨_, rfl⟩
  cases value <;> cases places <;>
    simp only [to_decimal_py, isNumber, isIntType, asInt, decimalOfNumber,
      numericValue, Bool.false_eq_true, Bool.true_eq_false, if_true, if_false,
      reduceCtorEq, reduceIte, false_or, or_false, or_true, true_or,
      eq_self_iff_true, true_implies, false_implies, implies_true] <;>
    first
    | exact hbranch _ _
    | exact ⟨by simp, fun err h => by
        injection h with h'
        exact h'.symm, by simp⟩

theorem C9_normalize_invalid_argument_witness :
    to_decimal_py (PyObj.pfloat (1001 / 1000)) (PyObj.pint (-1)) =
      Except.error PyErr.invalidArgument := by
  obtain ⟨err, herr⟩ :=
    (C9_normalize_invalid_argument (PyObj.pfloat (1001 / 1000))
      (PyObj.pint (-1))).1.mpr (by right; right; norm_num [asInt])
  have h2 := (C9_normalize_invalid_argument (PyObj.pfloat (1001 / 1000))
    (PyObj.pint (-1))).2.1 err herr
  rw [h2] at herr
  exact herr
